import Mathlib

/- Shallow embedding of the infonow_sequelize data-access layer.

   Source of truth: src/models/SubjectiveAttempt.ts, which contains the
   SequelizeModel base class (the safe-query wrapper: findAllSafe, createSafe,
   findOneSafe, findByPkSafe, findOrCreateSafe and the attribute-filtering
   helpers getAttributesCore / getIndexes / getNonIndexes / getAttributes /
   filterAttributes / getAttributesDeep / addAttributesToInclude) together with
   the declarative models SubjectiveAttempt, Meeting and Role, and
   src/migrations/20210521101108-add_column_in_chat.js (the Chats.type
   migration).

   JS option objects are embedded as explicit structures; the dynamic
   Includeable union (model class | association string | object with an
   optional model field) is an inductive type; absent JS fields are Option
   none; the external ORM delegates (findAll, findOne, findByPk, findOrCreate,
   create) are abstracted as function parameters, with rejection modelled by
   an Except-valued delegate. -/

/-- Column metadata relevant to the wrapper: the primaryKey flag and the
presence of a references entry (foreign key), the two fields read by isIndex. -/
structure ModelAttributeColumnOptions where
  primaryKey : Bool
  references : Bool
deriving DecidableEq

/-- A model class: its name and its rawAttributes map (field name paired with
its column metadata), in declaration order. -/
structure SequelizeModel where
  name : String
  rawAttributes : List (String × ModelAttributeColumnOptions)
deriving DecidableEq

/-- Modelled from the spec: the two-valued attribute-filtering policy declared
in src/types/SequelizeAttributes (file absent from src): WithIndexes selects
all declared columns, WithoutIndexes all columns except primary/foreign keys. -/
inductive SequelizeAttributes where
  | WithIndexes
  | WithoutIndexes
deriving DecidableEq

mutual
/-- An entry of options.include: a bare model class (which exposes the static
filterAttributes helper), an association name given as a string, or an include
descriptor object with an optional model field, its own attributes, where and
required fields, and an optional nested include (field incl here, since the
source field name is a Lean keyword). -/
inductive Includeable where
  | mdl (m : SequelizeModel)
  | assoc (s : String)
  | obj (model : Option SequelizeModel) (attributes : Option (List String))
        (whereCond : Option String) (required : Option Bool) (incl : Option IncludeVal)

/-- The value of an include field: a single entry or an array of entries. -/
inductive IncludeVal where
  | single (e : Includeable)
  | many (es : List Includeable)
end

/-- A find/create options object: where, limit, attributes and include
(field incl), modelling the FindOptions / CreateOptions / FindOrCreateOptions
shapes the wrapper manipulates; the where clause is kept opaque as a string. -/
structure FindOptions where
  whereCond : Option String
  limit : Option Nat
  attributes : Option (List String)
  incl : Option IncludeVal

/-- isIndex: a column is an index column when its metadata is flagged
primary key or carries a references entry. -/
def isIndex (column : ModelAttributeColumnOptions) : Bool :=
  column.primaryKey || column.references

/-- getAttributesCore: indexes = none gives all column names, some true only
the index columns, some false only the non-index columns, walking
rawAttributes in order. -/
def getAttributesCore (self : SequelizeModel) (indexes : Option Bool) : List String :=
  match indexes with
  | none => self.rawAttributes.map Prod.fst
  | some b => (self.rawAttributes.filter (fun kv => isIndex kv.2 == b)).map Prod.fst

/-- getNonIndexes: all columns except primary and foreign key indexes. -/
def getNonIndexes (self : SequelizeModel) : List String :=
  getAttributesCore self (some false)

/-- getIndexes: only primary and foreign key index columns. -/
def getIndexes (self : SequelizeModel) : List String :=
  getAttributesCore self (some true)

/-- getAttributes: all columns on the model. -/
def getAttributes (self : SequelizeModel) : List String :=
  getAttributesCore self none

/-- filterAttributes: the policy-selected list, getAttributes under
WithIndexes and getNonIndexes otherwise. -/
def filterAttributes (self : SequelizeModel)
    (attributeTypes : SequelizeAttributes := .WithoutIndexes) : List String :=
  if attributeTypes = SequelizeAttributes.WithIndexes then getAttributes self
  else getNonIndexes self

/-- addAttributesToInclude: when the entry is truthy and carries a model field
or exposes filterAttributes (a bare model class), it is replaced by a fresh
object holding only that model and its policy-filtered attribute list; any
other entry is returned unchanged. A plain descriptor object without a model
field exposes no filterAttributes, so it falls through unchanged. -/
def addAttributesToInclude (attributeTypes : SequelizeAttributes) :
    Includeable → Includeable
  | .mdl m => .obj (some m) (some (filterAttributes m attributeTypes)) none none none
  | .assoc s => .assoc s
  | .obj (some m) _ _ _ _ =>
      .obj (some m) (some (filterAttributes m attributeTypes)) none none none
  | .obj none attrs w r incl => .obj none attrs w r incl

mutual
/-- The effect of the getAttributesDeep while loop on an include field value:
an array is mapped through addAttributesToInclude and the loop then stops
(an array has no include field of its own), a single entry is rewritten and
the loop continues on the rewritten entry. -/
def processIncludeVal (attributeTypes : SequelizeAttributes) : IncludeVal → IncludeVal
  | .many es => .many (es.map (addAttributesToInclude attributeTypes))
  | .single e => .single (processSingle attributeTypes e)

/-- The loop continuation on a single entry. addAttributesToInclude leaves an
entry unchanged exactly on association strings and model-less descriptor
objects, and otherwise returns a fresh object without a nested include; so the
loop proceeds into a nested include only for a model-less descriptor object,
and every other entry is rewritten once and the loop then terminates. -/
def processSingle (attributeTypes : SequelizeAttributes) : Includeable → Includeable
  | .obj none attrs w r (some incl) =>
      .obj none attrs w r (some (processIncludeVal attributeTypes incl))
  | e => addAttributesToInclude attributeTypes e
end

/-- getAttributesDeep: when options is present, its attributes field is set to
the calling model's policy-filtered list and its include field is rewritten by
the while loop; an absent options value is returned unchanged. -/
def getAttributesDeep (self : SequelizeModel)
    (attributeTypes : SequelizeAttributes := .WithIndexes)
    (options : Option FindOptions := none) : Option FindOptions :=
  match options with
  | none => none
  | some o =>
      some { o with attributes := some (filterAttributes self attributeTypes),
                    incl := o.incl.map (processIncludeVal attributeTypes) }

/-- findAllSafe: preprocess the options with getAttributesDeep, then delegate
to the ORM findAll (abstracted as the function parameter). -/
def findAllSafe {ρ : Type} (self : SequelizeModel)
    (findAll : Option FindOptions → ρ)
    (attributeTypes : SequelizeAttributes := .WithIndexes)
    (options : Option FindOptions := none) : ρ :=
  findAll (getAttributesDeep self attributeTypes options)

/-- createSafe: preprocess the options with getAttributesDeep, then delegate
to the ORM create with the given values. -/
def createSafe {τ ρ : Type} (self : SequelizeModel)
    (create : τ → Option FindOptions → ρ) (values : τ)
    (attributeTypes : SequelizeAttributes := .WithIndexes)
    (options : Option FindOptions := none) : ρ :=
  create values (getAttributesDeep self attributeTypes options)

/-- findOneSafe: preprocess the options with getAttributesDeep, then delegate
to the ORM findOne. -/
def findOneSafe {ρ : Type} (self : SequelizeModel)
    (findOne : Option FindOptions → ρ)
    (attributeTypes : SequelizeAttributes := .WithIndexes)
    (options : Option FindOptions := none) : ρ :=
  findOne (getAttributesDeep self attributeTypes options)

/-- findByPkSafe: preprocess the options with getAttributesDeep, then delegate
to the ORM findByPk with the given identifier. -/
def findByPkSafe {ρ : Type} (self : SequelizeModel)
    (findByPk : Option Nat → Option FindOptions → ρ)
    (attributeTypes : SequelizeAttributes := .WithIndexes)
    (identifier : Option Nat := none)
    (options : Option FindOptions := none) : ρ :=
  findByPk identifier (getAttributesDeep self attributeTypes options)

/-- findOrCreateSafe: preprocess the options with getAttributesDeep, then
delegate to the ORM findOrCreate. -/
def findOrCreateSafe {ρ : Type} (self : SequelizeModel)
    (findOrCreate : Option FindOptions → ρ)
    (attributeTypes : SequelizeAttributes := .WithIndexes)
    (options : Option FindOptions := none) : ρ :=
  findOrCreate (getAttributesDeep self attributeTypes options)

/-- The SubjectiveAttempt model of src/models/SubjectiveAttempt.ts: composite
primary key attemptId/QuestionId, both foreign keys (to Attempt and Question),
plus the data columns. -/
def SubjectiveAttempt : SequelizeModel :=
  { name := "SubjectiveAttempt"
    rawAttributes := [
      ("attemptId", { primaryKey := true, references := true }),
      ("QuestionId", { primaryKey := true, references := true }),
      ("obtainedMarks", { primaryKey := false, references := false }),
      ("answerText", { primaryKey := false, references := false }),
      ("createdAt", { primaryKey := false, references := false }),
      ("updatedAt", { primaryKey := false, references := false })] }

/-- The Meeting model: surrogate integer primary key, public UUID identifier,
createdBy foreign key to User, and the data columns. -/
def Meeting : SequelizeModel :=
  { name := "Meeting"
    rawAttributes := [
      ("_meetingId", { primaryKey := true, references := false }),
      ("meetingId", { primaryKey := false, references := false }),
      ("createdBy", { primaryKey := false, references := true }),
      ("status", { primaryKey := false, references := false }),
      ("scheduledAt", { primaryKey := false, references := false }),
      ("createdAt", { primaryKey := false, references := false }),
      ("updatedAt", { primaryKey := false, references := false })] }

/-- The Role model: surrogate integer primary key, public UUID identifier and
the data columns. -/
def Role : SequelizeModel :=
  { name := "Role"
    rawAttributes := [
      ("_roleId", { primaryKey := true, references := false }),
      ("roleId", { primaryKey := false, references := false }),
      ("roleName", { primaryKey := false, references := false }),
      ("createdAt", { primaryKey := false, references := false }),
      ("updatedAt", { primaryKey := false, references := false })] }

/-- Projection: the attributes field of an optional options object. -/
def optAttributes (o : Option FindOptions) : Option (List String) :=
  o.bind FindOptions.attributes

/-- Projection: the where field of an optional options object. -/
def optWhere (o : Option FindOptions) : Option String :=
  o.bind FindOptions.whereCond

/-- Projection: the limit field of an optional options object. -/
def optLimit (o : Option FindOptions) : Option Nat :=
  o.bind FindOptions.limit

/-- Projection: the include field of an optional options object. -/
def optIncl (o : Option FindOptions) : Option IncludeVal :=
  o.bind FindOptions.incl

mutual
/-- Names of the models mentioned anywhere in an include field value. -/
def includeValModelNames : IncludeVal → List String
  | .single e => includeableModelNames e
  | .many es => includeListModelNames es

/-- Names of the models mentioned in a list of include entries. -/
def includeListModelNames : List Includeable → List String
  | [] => []
  | e :: es => includeableModelNames e ++ includeListModelNames es

/-- Names of the models mentioned in one include entry, nested includes
counted. -/
def includeableModelNames : Includeable → List String
  | .mdl m => [m.name]
  | .assoc _ => []
  | .obj m _ _ _ incl =>
      (match m with | some mm => [mm.name] | none => []) ++
      (match incl with | some iv => includeValModelNames iv | none => [])
end

/-- Names of the models mentioned in the include tree of an optional options
object. -/
def optIncludeModelNames (o : Option FindOptions) : List String :=
  match optIncl o with
  | some iv => includeValModelNames iv
  | none => []

/-- Projection: the where field of the first include entry. -/
def inclWhere : Option IncludeVal → Option String
  | some (.single (.obj _ _ w _ _)) => w
  | _ => none

/-- Projection: the required field of the first include entry. -/
def inclRequired : Option IncludeVal → Option Bool
  | some (.single (.obj _ _ _ r _)) => r
  | _ => none

/-- Modelled from the spec: the fixed string set ChatTypesEnum declared in
src/types (file absent from src); the migration only needs that it is a fixed
string set containing the default member chat. -/
def ChatTypesEnum : List String :=
  ["chat"]

/-- The attribute descriptor passed to addColumn: an enumerated type and a
default value. -/
structure MigrationColumnSpec where
  enumValues : List String
  defaultValue : Option String
deriving DecidableEq

/-- A table schema: its columns in order, each with its descriptor. -/
abbrev TableSchema : Type :=
  List (String × MigrationColumnSpec)

/-- Whether the schema already declares a column of the given name. -/
def hasColumn (schema : TableSchema) (column : String) : Bool :=
  schema.any (fun kv => kv.1 == column)

/-- Modelled from the spec: queryInterface.addColumn (the external migration
runner interface) appends a new column to the table schema, failing on a
duplicate column name as the SQL engine does. -/
def addColumn (schema : TableSchema) (column : String)
    (spec : MigrationColumnSpec) : Except String TableSchema :=
  if hasColumn schema column then Except.error "duplicate column"
  else Except.ok (schema ++ [(column, spec)])

/-- Modelled from the spec: queryInterface.removeColumn drops the column of
the given name from the table schema, failing when no such column exists. -/
def removeColumn (schema : TableSchema) (column : String) :
    Except String TableSchema :=
  if hasColumn schema column then
    Except.ok (schema.filter (fun kv => kv.1 != column))
  else Except.error "no such column"

namespace ChatMigration

/-- The column descriptor the migration adds: DataTypes.ENUM over
ChatTypesEnum with defaultValue chat. -/
def typeColumnSpec : MigrationColumnSpec :=
  { enumValues := ChatTypesEnum, defaultValue := some "chat" }

/-- The up step of 20210521101108-add_column_in_chat.js: add the enumerated
type column to the Chats table. -/
def up (chats : TableSchema) : Except String TableSchema :=
  addColumn chats "type" typeColumnSpec

/-- The down step: remove the type column from the Chats table. -/
def down (chats : TableSchema) : Except String TableSchema :=
  removeColumn chats "type"

end ChatMigration

/-- A concrete Chats schema without a type column, for the migration
round-trip witness. -/
def chats0 : TableSchema :=
  [("chatId", { enumValues := [], defaultValue := none }),
   ("message", { enumValues := [], defaultValue := none })]

/-- The Chats schema after the up step. -/
def chats1 : TableSchema :=
  chats0 ++ [("type", ChatMigration.typeColumnSpec)]

/-- Concrete options with a where clause and a limit, for witnesses. -/
def exampleOptions : FindOptions :=
  { whereCond := some "obtainedMarks > 0", limit := some 10,
    attributes := none, incl := none }

/-- Concrete options whose include entry carries a model and a nested include:
the Meeting descriptor itself contains a further include of Role. -/
def c1opts : FindOptions :=
  { whereCond := none, limit := none, attributes := none,
    incl := some (.single (.obj (some Meeting) none none none
      (some (.single (.mdl Role))))) }

/-- Concrete options whose include entry carries a model together with its own
where and required fields. -/
def c3opts : FindOptions :=
  { whereCond := some "answerText IS NOT NULL", limit := some 5,
    attributes := none,
    incl := some (.single (.obj (some Meeting) none
      (some "status = ongoing") (some true) none)) }

/-- Helper: under distinct column names, a name among the index columns cannot
also be among the non-index columns, the two filters of rawAttributes being
complementary. -/
theorem names_disjoint_of_nodup (l : List (String × ModelAttributeColumnOptions))
    (hnd : (l.map Prod.fst).Nodup) :
    List.Disjoint ((l.filter (fun kv => isIndex kv.2 == true)).map Prod.fst)
      ((l.filter (fun kv => isIndex kv.2 == false)).map Prod.fst) := by
  have hfun : (fun kv : String × ModelAttributeColumnOptions => isIndex kv.2 == false)
      = fun kv => !(isIndex kv.2 == true) := by
    funext kv
    cases isIndex kv.2 <;> rfl
  have hperm : List.Perm (l.filter (fun kv => isIndex kv.2 == true) ++
      l.filter (fun kv => isIndex kv.2 == false)) l := by
    rw [hfun]
    exact List.filter_append_perm _ l
  have hmap : List.Perm ((l.filter (fun kv => isIndex kv.2 == true)).map Prod.fst ++
      (l.filter (fun kv => isIndex kv.2 == false)).map Prod.fst) (l.map Prod.fst) := by
    have h := hperm.map Prod.fst
    rwa [List.map_append] at h
  exact List.disjoint_of_nodup_append (hmap.nodup_iff.mpr hnd)

/-- C4: for every model, getAttributes() equals the union of getIndexes() and
getNonIndexes(), and (under the models' distinct column names) the two are
disjoint: the primary-key-or-references predicate classifies every declared
column into exactly one side of the partition. -/
theorem attributes_partition (self : SequelizeModel)
    (hnd : (self.rawAttributes.map Prod.fst).Nodup) :
    (∀ n, n ∈ getAttributes self ↔ (n ∈ getIndexes self ∨ n ∈ getNonIndexes self)) ∧
    (∀ n, n ∈ getIndexes self → n ∉ getNonIndexes self) := by
  constructor
  · intro n
    simp only [getAttributes, getIndexes, getNonIndexes, getAttributesCore,
      List.mem_map, List.mem_filter]
    constructor
    · rintro ⟨kv, hkv, rfl⟩
      cases h : isIndex kv.2
      · exact Or.inr ⟨kv, ⟨hkv, by simp [h]⟩, rfl⟩
      · exact Or.inl ⟨kv, ⟨hkv, by simp [h]⟩, rfl⟩
    · rintro (⟨kv, ⟨hkv, h⟩, rfl⟩ | ⟨kv, ⟨hkv, h⟩, rfl⟩) <;> exact ⟨kv, hkv, rfl⟩
  · intro n hi hn
    exact names_disjoint_of_nodup self.rawAttributes hnd hi hn

/-- Witness for C4 at the SubjectiveAttempt model. -/
theorem attributes_partition_witness :
    (SubjectiveAttempt.rawAttributes.map Prod.fst).Nodup ∧
    ("obtainedMarks" ∈ getAttributes SubjectiveAttempt ↔
      ("obtainedMarks" ∈ getIndexes SubjectiveAttempt ∨
       "obtainedMarks" ∈ getNonIndexes SubjectiveAttempt)) ∧
    "attemptId" ∉ getNonIndexes SubjectiveAttempt :=
  ⟨by decide,
   (attributes_partition SubjectiveAttempt (by decide)).1 "obtainedMarks",
   (attributes_partition SubjectiveAttempt (by decide)).2 "attemptId" (by decide)⟩

/-- C2: with options present, the preprocessing every safe method applies sets
options.attributes to exactly the policy-selected list: all declared columns
under WithIndexes and all columns except primary/foreign keys under
WithoutIndexes; in particular (under the models' distinct column names) the
WithoutIndexes list contains no column flagged primary key or carrying a
references entry. -/
theorem safe_attributes_policy_selected (self : SequelizeModel)
    (a : SequelizeAttributes) (o : FindOptions)
    (hnd : (self.rawAttributes.map Prod.fst).Nodup) :
    optAttributes (getAttributesDeep self a (some o)) = some (filterAttributes self a) ∧
    filterAttributes self SequelizeAttributes.WithIndexes = getAttributes self ∧
    filterAttributes self SequelizeAttributes.WithoutIndexes = getNonIndexes self ∧
    ∀ kv ∈ self.rawAttributes, isIndex kv.2 = true →
      kv.1 ∉ filterAttributes self SequelizeAttributes.WithoutIndexes := by
  refine ⟨rfl, rfl, rfl, ?_⟩
  intro kv hkv hidx hmem
  have hfa : filterAttributes self SequelizeAttributes.WithoutIndexes
      = getNonIndexes self := rfl
  rw [hfa] at hmem
  have hi : kv.1 ∈ (self.rawAttributes.filter
      (fun kv => isIndex kv.2 == true)).map Prod.fst :=
    List.mem_map.mpr ⟨kv, List.mem_filter.mpr ⟨hkv, by simp [hidx]⟩, rfl⟩
  exact names_disjoint_of_nodup self.rawAttributes hnd hi hmem

/-- Witness for C2: under WithoutIndexes the injected list for
SubjectiveAttempt omits the composite-key column attemptId. -/
theorem safe_attributes_policy_selected_witness :
    (SubjectiveAttempt.rawAttributes.map Prod.fst).Nodup ∧
    "attemptId" ∉ filterAttributes SubjectiveAttempt SequelizeAttributes.WithoutIndexes :=
  ⟨by decide,
   (safe_attributes_policy_selected SubjectiveAttempt SequelizeAttributes.WithoutIndexes
      exampleOptions (by decide)).2.2.2
     ("attemptId", { primaryKey := true, references := true }) (by decide) rfl⟩

/-- C1 counterexample: with policy WithoutIndexes and an include entry for
Meeting that itself nests an include of Role, the preprocessing returns an
options object in which the Meeting entry has become a bare model/attributes
pair and the nested Role include has been discarded entirely, not rewritten
with the Role attribute list. -/
theorem nested_include_dropped :
    "Role" ∈ optIncludeModelNames (some c1opts) ∧
    optIncl (getAttributesDeep SubjectiveAttempt SequelizeAttributes.WithoutIndexes (some c1opts)) =
      some (IncludeVal.single (Includeable.obj (some Meeting)
        (some ["meetingId", "status", "scheduledAt", "createdAt", "updatedAt"])
        none none none)) ∧
    "Role" ∉ optIncludeModelNames
      (getAttributesDeep SubjectiveAttempt SequelizeAttributes.WithoutIndexes (some c1opts)) :=
  ⟨by decide, rfl, by decide⟩

/-- C1 (amended): the rewriting replaces each include entry that carries a
model (a bare model class or a descriptor with a model field) with a fresh
model/attributes pair whose attribute list is the child model's own
policy-filtered list; the replacement carries no nested include, so an include
nested inside a model-carrying entry is discarded rather than rewritten, and
the loop recurses further only through a model-less descriptor in single-entry
position. -/
theorem include_rewrite_model_entries (a : SequelizeAttributes)
    (m : SequelizeModel) (attrs : Option (List String)) (w : Option String)
    (r : Option Bool) (iv : IncludeVal) :
    addAttributesToInclude a (Includeable.mdl m) =
      Includeable.obj (some m) (some (filterAttributes m a)) none none none ∧
    addAttributesToInclude a (Includeable.obj (some m) attrs w r (some iv)) =
      Includeable.obj (some m) (some (filterAttributes m a)) none none none ∧
    processSingle a (Includeable.obj (some m) attrs w r (some iv)) =
      Includeable.obj (some m) (some (filterAttributes m a)) none none none ∧
    processSingle a (Includeable.obj none attrs w r (some iv)) =
      Includeable.obj none attrs w r (some (processIncludeVal a iv)) ∧
    processIncludeVal a (IncludeVal.many [Includeable.obj (some m) attrs w r (some iv)]) =
      IncludeVal.many [Includeable.obj (some m) (some (filterAttributes m a)) none none none] :=
  ⟨rfl, rfl, rfl, rfl, rfl⟩

/-- C3 counterexample: the include descriptor for Meeting carried its own
where and required fields; after preprocessing both are gone (the descriptor
was replaced wholesale by a model/attributes pair), so they do not reach the
delegated ORM call unchanged. -/
theorem include_own_fields_dropped :
    inclWhere c3opts.incl = some "status = ongoing" ∧
    inclRequired c3opts.incl = some true ∧
    inclWhere (optIncl (getAttributesDeep SubjectiveAttempt
      SequelizeAttributes.WithoutIndexes (some c3opts))) = none ∧
    inclRequired (optIncl (getAttributesDeep SubjectiveAttempt
      SequelizeAttributes.WithoutIndexes (some c3opts))) = none :=
  ⟨rfl, rfl, rfl, rfl⟩

/-- C3 (amended): the preprocessing touches only the attributes and include
fields of the options object: top-level where and limit reach the delegated
call unchanged, while an include entry carrying a model is replaced wholesale
by a model/attributes pair, dropping that entry's own where, required and
nested include fields. -/
theorem toplevel_frame_preserved (self : SequelizeModel) (a : SequelizeAttributes)
    (o : FindOptions) :
    optWhere (getAttributesDeep self a (some o)) = o.whereCond ∧
    optLimit (getAttributesDeep self a (some o)) = o.limit ∧
    ∀ (m : SequelizeModel) (attrs : Option (List String)) (w : Option String)
      (r : Option Bool) (iv : Option IncludeVal),
      addAttributesToInclude a (Includeable.obj (some m) attrs w r iv) =
        Includeable.obj (some m) (some (filterAttributes m a)) none none none :=
  ⟨rfl, rfl, fun m attrs w r iv => rfl⟩

/-- C5: called with the options argument omitted, every safe method passes the
absent options through to its delegate unmodified: getAttributesDeep maps an
absent options object to an absent options object, injecting no attribute list
and rewriting no include. -/
theorem no_options_passthrough (self : SequelizeModel) (a : SequelizeAttributes) :
    getAttributesDeep self a none = none ∧
    (∀ (ρ : Type) (q : Option FindOptions → ρ), findAllSafe self q a = q none) ∧
    (∀ (ρ : Type) (q : Option FindOptions → ρ), findOneSafe self q a = q none) ∧
    (∀ (ρ : Type) (q : Option Nat → Option FindOptions → ρ) (i : Option Nat),
      findByPkSafe self q a i = q i none) ∧
    (∀ (ρ : Type) (q : Option FindOptions → ρ), findOrCreateSafe self q a = q none) ∧
    (∀ (τ ρ : Type) (q : τ → Option FindOptions → ρ) (v : τ),
      createSafe self q v a = q v none) :=
  ⟨rfl, fun ρ q => rfl, fun ρ q => rfl, fun ρ q i => rfl, fun ρ q => rfl,
   fun τ ρ q v => rfl⟩

/-- C6: the wrapper layer is a total preprocessing step that introduces no
failure of its own: each safe method equals its Except-valued delegate applied
to the preprocessed options, so a safe call is rejected exactly when, and with
exactly the error with which, the delegated query execution rejects. -/
theorem wrapper_error_propagation (self : SequelizeModel) (a : SequelizeAttributes)
    (o : Option FindOptions) :
    ∀ (α τ : Type) (fa f1 foc : Option FindOptions → Except String α)
      (fpk : Option Nat → Option FindOptions → Except String α) (i : Option Nat)
      (c : τ → Option FindOptions → Except String α) (v : τ),
      findAllSafe self fa a o = fa (getAttributesDeep self a o) ∧
      findOneSafe self f1 a o = f1 (getAttributesDeep self a o) ∧
      findByPkSafe self fpk a i o = fpk i (getAttributesDeep self a o) ∧
      findOrCreateSafe self foc a o = foc (getAttributesDeep self a o) ∧
      createSafe self c v a o = c v (getAttributesDeep self a o) :=
  fun α τ fa f1 foc fpk i c v => ⟨rfl, rfl, rfl, rfl, rfl⟩

/-- C7: with the delegates instantiated to return the options they are handed,
createSafe and findOrCreateSafe hand their delegate exactly the options
findAllSafe hands findAll for the same policy and input options: all three
apply the same getAttributesDeep transformation. -/
theorem create_findOrCreate_same_transform (self : SequelizeModel)
    (a : SequelizeAttributes) (o : Option FindOptions) :
    (∀ (τ : Type) (v : τ),
      createSafe self (fun _ fo => fo) v a o = findAllSafe self (fun fo => fo) a o) ∧
    findOrCreateSafe self (fun fo => fo) a o = findAllSafe self (fun fo => fo) a o :=
  ⟨fun τ v => rfl, rfl⟩

/-- C9: an include entry that is neither a model class (exposing
filterAttributes) nor a descriptor carrying a model field, for example an
association name given as a string, is returned by addAttributesToInclude
unchanged, so no attribute filtering is applied to that branch. -/
theorem non_model_include_unchanged (a : SequelizeAttributes) :
    (∀ s, addAttributesToInclude a (Includeable.assoc s) = Includeable.assoc s) ∧
    ∀ (attrs : Option (List String)) (w : Option String) (r : Option Bool)
      (iv : Option IncludeVal),
      addAttributesToInclude a (Includeable.obj none attrs w r iv) =
        Includeable.obj none attrs w r iv :=
  ⟨fun s => rfl, fun attrs w r iv => rfl⟩

/-- C10: every safe method's policy parameter defaults to WithIndexes, and
under WithIndexes the injected list is the full declared column list, never
the key-excluding projection. -/
theorem default_policy_withIndexes (self : SequelizeModel) :
    (∀ (ρ : Type) (q : Option FindOptions → ρ),
      findAllSafe self q = findAllSafe self q SequelizeAttributes.WithIndexes none) ∧
    (∀ (ρ : Type) (q : Option FindOptions → ρ),
      findOneSafe self q = findOneSafe self q SequelizeAttributes.WithIndexes none) ∧
    (∀ (ρ : Type) (q : Option Nat → Option FindOptions → ρ),
      findByPkSafe self q = findByPkSafe self q SequelizeAttributes.WithIndexes none none) ∧
    (∀ (ρ : Type) (q : Option FindOptions → ρ),
      findOrCreateSafe self q = findOrCreateSafe self q SequelizeAttributes.WithIndexes none) ∧
    (∀ (τ ρ : Type) (q : τ → Option FindOptions → ρ) (v : τ),
      createSafe self q v = createSafe self q v SequelizeAttributes.WithIndexes none) ∧
    filterAttributes self SequelizeAttributes.WithIndexes = getAttributes self ∧
    ∀ o : FindOptions,
      optAttributes (getAttributesDeep self SequelizeAttributes.WithIndexes (some o)) =
        some (getAttributes self) :=
  ⟨fun ρ q => rfl, fun ρ q => rfl, fun ρ q => rfl, fun ρ q => rfl,
   fun τ ρ q v => rfl, rfl, fun o => rfl⟩

/-- C8: whenever the up step of the Chats migration succeeds on a schema (so
the type column was not already present), running the down step on the result
restores exactly the original schema. -/
theorem migration_roundtrip (s s' : TableSchema)
    (h : ChatMigration.up s = Except.ok s') :
    ChatMigration.down s' = Except.ok s := by
  unfold ChatMigration.up addColumn at h
  by_cases hc : hasColumn s "type" = true
  · rw [if_pos hc] at h
    simp at h
  · rw [if_neg hc] at h
    have h' := Except.ok.inj h
    subst h'
    unfold ChatMigration.down removeColumn
    have hc2 : hasColumn (s ++ [("type", ChatMigration.typeColumnSpec)]) "type" = true := by
      simp [hasColumn]
    rw [if_pos hc2, List.filter_append]
    have hnotin : ∀ kv ∈ s, (kv.1 != "type") = true := by
      intro kv hkv
      by_contra hne
      apply hc
      unfold hasColumn
      refine List.any_eq_true.mpr ⟨kv, hkv, ?_⟩
      simpa using hne
    rw [List.filter_eq_self.mpr hnotin]
    simp

/-- Witness for C8 on a concrete Chats schema without a type column. -/
theorem migration_roundtrip_witness :
    ChatMigration.down chats1 = Except.ok chats0 :=
  migration_roundtrip chats0 chats1 rfl
